import Mathlib

/-!
Shallow embedding of the credential/session core of the `gogo` repository
(`internal/auth/types.go`, `internal/middleware` JWT middleware, the sqlc
queries in `internal/db/queries` and the `users` / `refresh_tokens`
migrations), together with theorems settling the spec claims.

Modelling conventions:
* timestamps are `Int` (Unix seconds); `time.Now()` within one service call
  is a single `now : Int` parameter (instantaneous-execution abstraction);
* the relational store is a `DBState` value; each sqlc query is a pure
  function on it, faithful to its SQL text and to the constraints of the
  migrations (`users.email UNIQUE`, `refresh_tokens.token UNIQUE`,
  `is_revoked BOOLEAN DEFAULT FALSE`);
* `crypto/rand` output is an explicit `randBytes : List Nat` oracle
  argument (each entry a byte, reduced mod 256 by the hex encoder);
* the external bcrypt library is modelled by its contract: a hash is a
  symbolic value remembering cost, salt and plaintext, and comparison
  checks the plaintext, which captures hash-then-verify round-tripping
  and nothing more;
* the external golang-jwt library is modelled symbolically: a signature is
  the constructor `Sig.hmacSHA256 secret claims` (an ideal MAC), and
  `jwtParseWithClaims` performs the keyfunc algorithm check, signature
  check and expiry validation that `jwt.ParseWithClaims` performs;
* each service operation additionally returns the ordered list of
  persistence-port calls it made (`calls`), mirroring the `s.queries.X`
  invocations in the Go source, so that claims about which queries run
  (e.g. "no existence pre-check") are statable.
-/

/-- Error keys from `internal/errs` (part_009). -/
def ErrKeyAuthInvalidToken : String := "auth.invalid_token"

/-- Error key for a missing user. -/
def ErrKeyAuthUserNotFound : String := "auth.user_not_found"

/-- Error key for bad credentials. -/
def ErrKeyAuthInvalidCredentials : String := "auth.invalid_credentials"

/-- Error key for a request with no token where one is required. -/
def ErrKeyAuthTokenRequired : String := "auth.token_required"

/-- Error key for a duplicate registration. -/
def ErrKeyAuthUserExists : String := "auth.user_exists"

/-- Go `error` values that cross the component boundary: `errs.DomainError`
(key, message, HTTP status, optional wrapped error), `fmt.Errorf` wrapping
(`wrapf`), the pgx unique-violation error (SQLSTATE 23505), and plain
errors. -/
inductive GoErr where
  | domain (key message : String) (status : Nat)
  | domainWrap (key message : String) (status : Nat) (wrapped : GoErr)
  | wrapf (context : String) (wrapped : GoErr)
  | pgUniqueViolation
  | simple (msg : String)
deriving DecidableEq, Repr

/-- The stable key of a domain error (`DomainError.Key`), `none` for
non-domain errors. -/
def GoErr.errKey : GoErr → Option String
  | .domain k _ _ => some k
  | .domainWrap k _ _ _ => some k
  | _ => none

/-- `errs.NewUnauthorizedError` (status 401). -/
def NewUnauthorizedError (key message : String) : GoErr :=
  .domain key message 401

/-- `errs.NewNotFoundError` (status 404). -/
def NewNotFoundError (key message : String) : GoErr :=
  .domain key message 404

/-- `errs.NewBadRequestError` (status 400). -/
def NewBadRequestError (key message : String) : GoErr :=
  .domain key message 400

/-- `errs.WrapDomainError` (a domain error carrying a wrapped cause in its
`Err` field). -/
def WrapDomainError (key message : String) (status : Nat) (err : GoErr) : GoErr :=
  .domainWrap key message status err

/-- `auth.ErrInvalidCredentials`. -/
def ErrInvalidCredentials : GoErr :=
  NewUnauthorizedError ErrKeyAuthInvalidCredentials "Invalid email or password"

/-- `auth.ErrUserNotFound`. -/
def ErrUserNotFound : GoErr :=
  NewNotFoundError ErrKeyAuthUserNotFound "User not found"

/-- `auth.ErrInvalidToken`. -/
def ErrInvalidToken : GoErr :=
  NewUnauthorizedError ErrKeyAuthInvalidToken "Invalid token"

/-- `auth.ErrTokenExpired` (defined in the source; note it reuses the key
`auth.invalid_token`). -/
def ErrTokenExpired : GoErr :=
  NewUnauthorizedError ErrKeyAuthInvalidToken "Token expired"

/-- `auth.ErrUserAlreadyExists`. -/
def ErrUserAlreadyExists : GoErr :=
  NewBadRequestError ErrKeyAuthUserExists "User with this email already exists"

/-- `middleware.ErrUserNotAuthenticated`. -/
def ErrUserNotAuthenticated : GoErr :=
  NewUnauthorizedError ErrKeyAuthTokenRequired "User not authenticated"

/-- Contract model of `golang.org/x/crypto/bcrypt` hashes: a salted one-way
hash is represented symbolically by the cost, the salt drawn from the
RNG, and the hashed plaintext. -/
structure HashedPassword where
  cost : Nat
  salt : Nat
  plaintext : String
deriving DecidableEq, Repr

/-- `bcrypt.DefaultCost`. -/
def bcryptDefaultCost : Nat := 10

/-- Contract model of `bcrypt.GenerateFromPassword` at `bcrypt.DefaultCost`;
the salt is an explicit RNG oracle argument. Fails only on catastrophic
RNG failure, which the model omits. -/
def GenerateFromPassword (salt : Nat) (password : String) : HashedPassword :=
  ⟨bcryptDefaultCost, salt, password⟩

/-- Contract model of `bcrypt.CompareHashAndPassword`: `true` exactly when
the hash was produced from this password (`nil` error in Go). -/
def CompareHashAndPassword (hash : HashedPassword) (password : String) : Bool :=
  hash.plaintext == password

/-- A row of the `users` table (migration: `email VARCHAR(255) NOT NULL
UNIQUE`; `db.User`). -/
structure User where
  id : Int
  email : String
  name : String
  password : HashedPassword
deriving DecidableEq, Repr

/-- A row of the `refresh_tokens` table (migration: `token VARCHAR(512) NOT
NULL UNIQUE`, `is_revoked BOOLEAN DEFAULT FALSE`; `db.RefreshToken`). -/
structure RefreshToken where
  id : Int
  userId : Int
  token : String
  expiresAt : Int
  createdAt : Int
  isRevoked : Bool
deriving DecidableEq, Repr

/-- The relational store visible to the core: the `users` and
`refresh_tokens` tables plus the two `SERIAL` sequences. -/
structure DBState where
  users : List User
  refreshTokens : List RefreshToken
  nextUserId : Int
  nextTokenId : Int
deriving DecidableEq, Repr

/-- `SELECT * FROM users WHERE email = $1 LIMIT 1` (`GetUserByEmail`). -/
def GetUserByEmail (st : DBState) (email : String) : Option User :=
  st.users.find? (fun u => u.email == email)

/-- `SELECT * FROM users WHERE id = $1 LIMIT 1` (`GetUserByID`). -/
def GetUserByID (st : DBState) (id : Int) : Option User :=
  st.users.find? (fun u => u.id == id)

/-- `INSERT INTO users (email, name, password) VALUES ... RETURNING *`
(`CreateUser`); the `UNIQUE` constraint on `email` rejects a duplicate with
SQLSTATE 23505. -/
def CreateUser (st : DBState) (email name : String) (password : HashedPassword) :
    Except GoErr (User × DBState) :=
  if st.users.any (fun u => u.email == email) then
    .error .pgUniqueViolation
  else
    let u : User := ⟨st.nextUserId, email, name, password⟩
    .ok (u, { st with users := st.users ++ [u], nextUserId := st.nextUserId + 1 })

/-- `INSERT INTO refresh_tokens (user_id, token, expires_at) VALUES ...
RETURNING *` (`CreateRefreshToken`); the `UNIQUE` constraint on `token`
rejects a duplicate value, and `is_revoked` defaults to `FALSE`. -/
def CreateRefreshToken (st : DBState) (userId : Int) (token : String)
    (expiresAt now : Int) : Except GoErr (RefreshToken × DBState) :=
  if st.refreshTokens.any (fun r => r.token == token) then
    .error .pgUniqueViolation
  else
    let r : RefreshToken := ⟨st.nextTokenId, userId, token, expiresAt, now, false⟩
    .ok (r, { st with refreshTokens := st.refreshTokens ++ [r],
                      nextTokenId := st.nextTokenId + 1 })

/-- `SELECT * FROM refresh_tokens WHERE token = $1 AND expires_at > NOW()
AND is_revoked = FALSE LIMIT 1` (`GetRefreshToken`): expired or revoked
rows are invisible. -/
def GetRefreshToken (st : DBState) (token : String) (now : Int) : Option RefreshToken :=
  st.refreshTokens.find?
    (fun r => r.token == token && decide (now < r.expiresAt) && r.isRevoked == false)

/-- `UPDATE refresh_tokens SET is_revoked = TRUE WHERE token = $1`
(`RevokeRefreshToken`). -/
def RevokeRefreshToken (st : DBState) (token : String) : DBState :=
  let upd := fun (r : RefreshToken) =>
    if r.token == token then { r with isRevoked := true } else r
  { st with refreshTokens := st.refreshTokens.map upd }

/-- One persistence-port invocation made by the service (one `s.queries.X`
call in the Go source), recorded in order. -/
inductive PortCall where
  | createUser (email name : String)
  | getUserByEmail (email : String)
  | getUserByID (id : Int)
  | createRefreshToken (userId : Int) (token : String)
  | getRefreshToken (token : String)
  | revokeRefreshToken (token : String)
deriving DecidableEq, Repr

/-- Result of a service operation: the Go return value, the store after
the operation, and the ordered persistence calls that were made. -/
structure SvcResult (α : Type) where
  res : Except GoErr α
  st : DBState
  calls : List PortCall

/-- One hex digit (lowercase), as produced by `encoding/hex`. -/
def hexDigit (n : Nat) : Char :=
  if n < 10 then Char.ofNat (48 + n) else Char.ofNat (87 + n)

/-- Hex encoding of one byte: two lowercase digits. -/
def hexByte (b : Nat) : String :=
  String.mk [hexDigit ((b % 256) / 16), hexDigit (b % 16)]

/-- `hex.EncodeToString` over a byte slice. -/
def hexEncode : List Nat → String
  | [] => ""
  | b :: bs => hexByte b ++ hexEncode bs

/-- Signing algorithm recorded in a JWT header (`alg`). -/
inductive SigAlg where
  | HS256
  | RS256
  | noAlg
deriving DecidableEq, Repr

/-- JWT claims as in `middleware.Claims`: user id, email, plus the
registered `exp` and `iat` claims. -/
structure Claims where
  userId : Int
  email : String
  expiresAt : Int
  issuedAt : Int
deriving DecidableEq, Repr

/-- Symbolic signature value: an ideal MAC (`hmacSHA256 secret payload`)
or any other byte string (`forged`), which no secret ever MACs. -/
inductive Sig where
  | hmacSHA256 (secret : String) (payload : Claims)
  | forged (bytes : Nat)
deriving DecidableEq, Repr

/-- A compact signed token: header algorithm, claims payload, signature. -/
structure SignedToken where
  alg : SigAlg
  claims : Claims
  sig : Sig
deriving DecidableEq, Repr

/-- `jwt.NewWithClaims(jwt.SigningMethodHS256, claims).SignedString(secret)`;
HMAC signing of marshallable claims cannot fail, so it is total here. -/
def jwtSign (secret : String) (c : Claims) : SignedToken :=
  ⟨SigAlg.HS256, c, Sig.hmacSHA256 secret c⟩

/-- Failure modes of `jwt.ParseWithClaims`. -/
inductive JwtError where
  | keyfuncError
  | signatureInvalid
  | tokenExpired
deriving DecidableEq, Repr

/-- Contract model of `jwt.ParseWithClaims` with the keyfunc used in
`AuthService.VerifyJWT`: the keyfunc rejects any non-HMAC signing method,
then the signature is checked against the secret, then the registered
claims are validated (`exp` must be in the future). -/
def jwtParseWithClaims (secret : String) (now : Int) (t : SignedToken) :
    Except JwtError Claims :=
  match t.alg with
  | SigAlg.HS256 =>
      if t.sig = Sig.hmacSHA256 secret t.claims then
        if now < t.claims.expiresAt then .ok t.claims
        else .error .tokenExpired
      else .error .signatureInvalid
  | _ => .error .keyfuncError

/-- The token pair returned to callers; the access token is kept in its
parsed symbolic form. -/
structure TokenPair where
  AccessToken : SignedToken
  RefreshToken : String
deriving DecidableEq, Repr

/-- `auth.AuthService`: the sqlc queries handle is the `DBState` threaded
through each operation; the logger is omitted (write-only). -/
structure AuthService where
  jwtSecret : String
deriving DecidableEq, Repr

/-- `AuthService.VerifyJWT`: any parse/verification failure — expired,
bad signature, wrong algorithm — is mapped to `ErrInvalidToken`. -/
def AuthService.VerifyJWT (s : AuthService) (now : Int) (t : SignedToken) :
    Except GoErr SignedToken :=
  match jwtParseWithClaims s.jwtSecret now t with
  | .error _ => .error ErrInvalidToken
  | .ok _ => .ok t

/-- `RegisterRequest` (binding-validated fields). -/
structure RegisterRequest where
  Email : String
  Name : String
  Password : String
deriving DecidableEq, Repr

/-- `LoginRequest`. -/
structure LoginRequest where
  Email : String
  Password : String
deriving DecidableEq, Repr

/-- `AuthService.generateTokenPair`: issues an HS256 access token whose
`exp` is `now` plus 7 days and `iat` is `now`, draws 32 random bytes
(the `randBytes` oracle), hex encodes them as the refresh-token value,
and persists the refresh token with expiry `now` plus 30 days. -/
def AuthService.generateTokenPair (s : AuthService) (st : DBState) (user : User)
    (now : Int) (randBytes : List Nat) : SvcResult TokenPair :=
  let accessClaims : Claims :=
    ⟨user.id, user.email, now + 7 * 24 * 3600, now⟩
  let accessToken := jwtSign s.jwtSecret accessClaims
  let refreshTokenString := hexEncode randBytes
  let expiresAt := now + 30 * 24 * 3600
  match CreateRefreshToken st user.id refreshTokenString expiresAt now with
  | .error e =>
      ⟨.error (.wrapf "failed to store refresh token" e), st,
        [.createRefreshToken user.id refreshTokenString]⟩
  | .ok (_, st1) =>
      ⟨.ok ⟨accessToken, refreshTokenString⟩, st1,
        [.createRefreshToken user.id refreshTokenString]⟩

/-- `AuthService.Register`: hash the password, insert the user (the DB
unique constraint is the only duplicate check — no existence pre-read),
map a unique violation to `ErrUserAlreadyExists`, then issue a token
pair. -/
def AuthService.Register (s : AuthService) (st : DBState) (req : RegisterRequest)
    (salt : Nat) (now : Int) (randBytes : List Nat) : SvcResult (TokenPair × User) :=
  let hashedPassword := GenerateFromPassword salt req.Password
  match CreateUser st req.Email req.Name hashedPassword with
  | .error e =>
      match e with
      | .pgUniqueViolation =>
          ⟨.error ErrUserAlreadyExists, st, [.createUser req.Email req.Name]⟩
      | other =>
          ⟨.error (.wrapf "failed to create user" other), st,
            [.createUser req.Email req.Name]⟩
  | .ok (user, st1) =>
      let g := s.generateTokenPair st1 user now randBytes
      match g.res with
      | .error e =>
          ⟨.error (.wrapf "failed to generate tokens" e), g.st,
            .createUser req.Email req.Name :: g.calls⟩
      | .ok pair =>
          ⟨.ok (pair, user), g.st, .createUser req.Email req.Name :: g.calls⟩

/-- `AuthService.Login`: fetch the user by email (any failure yields
`ErrInvalidCredentials`), verify the password (mismatch yields the same
`ErrInvalidCredentials`), then issue a token pair. -/
def AuthService.Login (s : AuthService) (st : DBState) (req : LoginRequest)
    (now : Int) (randBytes : List Nat) : SvcResult (TokenPair × User) :=
  match GetUserByEmail st req.Email with
  | none => ⟨.error ErrInvalidCredentials, st, [.getUserByEmail req.Email]⟩
  | some user =>
      if CompareHashAndPassword user.password req.Password then
        let g := s.generateTokenPair st user now randBytes
        match g.res with
        | .error e =>
            ⟨.error (.wrapf "failed to generate tokens" e), g.st,
              .getUserByEmail req.Email :: g.calls⟩
        | .ok pair =>
            ⟨.ok (pair, user), g.st, .getUserByEmail req.Email :: g.calls⟩
      else
        ⟨.error ErrInvalidCredentials, st, [.getUserByEmail req.Email]⟩

/-- `AuthService.RefreshToken`: look up the presented token (expired or
revoked rows are invisible, failure yields `ErrInvalidToken`), fetch the
owning user, revoke the old token (a revoke failure would be logged and
ignored; the pure store cannot fail), then issue a new pair. -/
def AuthService.RefreshToken (s : AuthService) (st : DBState)
    (refreshToken : String) (now : Int) (randBytes : List Nat) : SvcResult TokenPair :=
  match GetRefreshToken st refreshToken now with
  | none => ⟨.error ErrInvalidToken, st, [.getRefreshToken refreshToken]⟩
  | some dbToken =>
      match GetUserByID st dbToken.userId with
      | none =>
          ⟨.error ErrUserNotFound, st,
            [.getRefreshToken refreshToken, .getUserByID dbToken.userId]⟩
      | some user =>
          let st1 := RevokeRefreshToken st refreshToken
          let g := s.generateTokenPair st1 user now randBytes
          let calls := .getRefreshToken refreshToken ::
            .getUserByID dbToken.userId :: .revokeRefreshToken refreshToken :: g.calls
          match g.res with
          | .error e => ⟨.error (.wrapf "failed to generate tokens" e), g.st, calls⟩
          | .ok pair => ⟨.ok pair, g.st, calls⟩

/-- The parts of a `gin.Context` request the middleware reads: the `token`
query parameter (`c.Query`, empty string when absent) and the
`Authorization` header (`c.GetHeader`, empty string when absent). -/
structure GinRequest where
  queryToken : String
  authHeader : String
deriving DecidableEq, Repr

/-- `middleware.ExtractBearerToken`: strips a `Bearer ` prefix, accepts a
raw token otherwise, and reports absence of the header. -/
def ExtractBearerToken (authHeader : String) : String × Bool :=
  if authHeader == "" then ("", false)
  else if authHeader.startsWith "Bearer " then (authHeader.drop 7, true)
  else (authHeader, true)

/-- `middleware.UserJWTVerifier`: the consumer-facing interface, as a
function from the wire token string to verified claims (the type
assertion `token.Claims.(*Claims)` always succeeds because
`ParseWithClaims` is seeded with a `*Claims`). -/
def UserJWTVerifier : Type := String → Except GoErr Claims

/-- `middleware.ExtractUserIDFromJWT`: reads the `token` query parameter
first, falls back to the `Authorization` header only when the query
parameter is empty, returns `.ok none` when no token is present at all,
wraps any verification failure, and otherwise returns the user id from
the verified claims. -/
def ExtractUserIDFromJWT (vf : UserJWTVerifier) (req : GinRequest) :
    Except GoErr (Option Int) :=
  let fromQuery := req.queryToken
  let tokenString :=
    if fromQuery == "" then (ExtractBearerToken req.authHeader).1 else fromQuery
  if tokenString == "" then .ok none
  else
    match vf tokenString with
    | .error e =>
        .error (WrapDomainError ErrKeyAuthInvalidToken "Invalid or expired token" 401 e)
    | .ok claims => .ok (some claims.userId)

/-- What a middleware does with the request: continue with an
authenticated user id in the context, continue anonymously, or abort with
an error response. -/
inductive AuthOutcome where
  | proceedAs (userId : Int)
  | proceedAnon
  | reject (e : GoErr)
deriving DecidableEq, Repr

/-- `middleware.UserAuthMiddleware`: aborts on a verification error,
aborts with `ErrUserNotAuthenticated` when no token was provided, and
otherwise stores the user id and continues. -/
def UserAuthMiddleware (vf : UserJWTVerifier) (req : GinRequest) : AuthOutcome :=
  match ExtractUserIDFromJWT vf req with
  | .error e => .reject e
  | .ok none => .reject ErrUserNotAuthenticated
  | .ok (some userId) => .proceedAs userId

/-- `middleware.OptionalUserAuthMiddleware`: stores the user id only when a
token is present and valid, and continues regardless. -/
def OptionalUserAuthMiddleware (vf : UserJWTVerifier) (req : GinRequest) : AuthOutcome :=
  match ExtractUserIDFromJWT vf req with
  | .ok (some userId) => .proceedAs userId
  | _ => .proceedAnon

/-- The body of a `MessageResponse`. -/
structure MessageResponse where
  message : String
deriving DecidableEq, Repr

/-- `AuthHandler.Logout`: writes a fixed success message and touches
neither the service nor the store (no persistence calls at all). -/
def AuthHandler.Logout (st : DBState) : SvcResult MessageResponse :=
  ⟨.ok ⟨"Logged out successfully"⟩, st, []⟩

instance {ε α : Type} [DecidableEq ε] [DecidableEq α] : DecidableEq (Except ε α)
  | .ok a, .ok b =>
      if h : a = b then isTrue (by rw [h])
      else isFalse (by intro hc; cases hc; exact h rfl)
  | .ok _, .error _ => isFalse (by intro h; cases h)
  | .error _, .ok _ => isFalse (by intro h; cases h)
  | .error e, .error f =>
      if h : e = f then isTrue (by rw [h])
      else isFalse (by intro hc; cases hc; exact h rfl)

theorem hexEncode_length (bs : List Nat) : (hexEncode bs).length = 2 * bs.length := by
  induction bs with
  | nil => rfl
  | cons b bs ih =>
      show ((hexByte b) ++ hexEncode bs).length = 2 * (bs.length + 1)
      rw [String.length_append, ih]
      show 2 + 2 * bs.length = 2 * (bs.length + 1)
      omega

theorem generateTokenPair_fresh (s : AuthService) (st : DBState) (user : User)
    (now : Int) (rb : List Nat)
    (h : st.refreshTokens.any (fun x => x.token == hexEncode rb) = false) :
    AuthService.generateTokenPair s st user now rb =
      ⟨.ok ⟨jwtSign s.jwtSecret ⟨user.id, user.email, now + 7 * 24 * 3600, now⟩,
          hexEncode rb⟩,
        ⟨st.users,
          st.refreshTokens ++
            [⟨st.nextTokenId, user.id, hexEncode rb, now + 30 * 24 * 3600, now, false⟩],
          st.nextUserId, st.nextTokenId + 1⟩,
        [.createRefreshToken user.id (hexEncode rb)]⟩ := by
  unfold AuthService.generateTokenPair CreateRefreshToken
  simp [h]

theorem generateTokenPair_collision (s : AuthService) (st : DBState) (user : User)
    (now : Int) (rb : List Nat)
    (h : st.refreshTokens.any (fun x => x.token == hexEncode rb) = true) :
    AuthService.generateTokenPair s st user now rb =
      ⟨.error (.wrapf "failed to store refresh token" .pgUniqueViolation), st,
        [.createRefreshToken user.id (hexEncode rb)]⟩ := by
  unfold AuthService.generateTokenPair CreateRefreshToken
  simp [h]

/-- C9: Logout mutates nothing: it returns a fixed success message, makes
no persistence call, leaves the store exactly as it was, and in particular
every refresh-token lookup behaves identically before and after. -/
theorem logout_mutates_nothing (st : DBState) :
    (AuthHandler.Logout st).res = .ok ⟨"Logged out successfully"⟩ ∧
    (AuthHandler.Logout st).st = st ∧
    (AuthHandler.Logout st).calls = [] ∧
    (∀ t now, GetRefreshToken (AuthHandler.Logout st).st t now = GetRefreshToken st t now) :=
  ⟨rfl, rfl, rfl, fun _ _ => rfl⟩

/-- C2: a Login whose email lookup fails and a Login whose password check
fails return the identical `ErrInvalidCredentials` value, whose stable key
is `auth.invalid_credentials`; the two causes are indistinguishable from
the returned error. -/
theorem login_invalid_credentials_indistinguishable
    (s : AuthService) (stA stB : DBState) (reqA reqB : LoginRequest) (user : User)
    (nowA nowB : Int) (rbA rbB : List Nat)
    (hA : GetUserByEmail stA reqA.Email = none)
    (hB : GetUserByEmail stB reqB.Email = some user)
    (hpw : CompareHashAndPassword user.password reqB.Password = false) :
    (s.Login stA reqA nowA rbA).res = .error ErrInvalidCredentials ∧
    (s.Login stB reqB nowB rbB).res = .error ErrInvalidCredentials ∧
    ErrInvalidCredentials.errKey = some ErrKeyAuthInvalidCredentials := by
  refine ⟨?_, ?_, rfl⟩
  · unfold AuthService.Login
    simp [hA]
  · unfold AuthService.Login
    simp [hB, hpw]

theorem login_invalid_credentials_indistinguishable_witness :
    GetUserByEmail ⟨[], [], 1, 1⟩ "a@x.com" = none ∧
    GetUserByEmail ⟨[⟨1, "b@x.com", "B", GenerateFromPassword 7 "right"⟩], [], 2, 1⟩
      "b@x.com" = some ⟨1, "b@x.com", "B", GenerateFromPassword 7 "right"⟩ ∧
    CompareHashAndPassword (GenerateFromPassword 7 "right") "wrong" = false ∧
    ((⟨"sec"⟩ : AuthService).Login ⟨[], [], 1, 1⟩ ⟨"a@x.com", "pw"⟩ 0 [0]).res
      = .error ErrInvalidCredentials ∧
    ((⟨"sec"⟩ : AuthService).Login
        ⟨[⟨1, "b@x.com", "B", GenerateFromPassword 7 "right"⟩], [], 2, 1⟩
        ⟨"b@x.com", "wrong"⟩ 0 [0]).res = .error ErrInvalidCredentials := by
  have h := login_invalid_credentials_indistinguishable
    (⟨"sec"⟩ : AuthService) ⟨[], [], 1, 1⟩
    ⟨[⟨1, "b@x.com", "B", GenerateFromPassword 7 "right"⟩], [], 2, 1⟩
    ⟨"a@x.com", "pw"⟩ ⟨"b@x.com", "wrong"⟩
    ⟨1, "b@x.com", "B", GenerateFromPassword 7 "right"⟩ 0 0 [0] [0]
    (by decide) (by decide) (by decide)
  exact ⟨by decide, by decide, by decide, h.1, h.2.1⟩

/-- C3: when the user insert fails with the unique-constraint
violation of the persistence layer, Register returns the stable
`ErrUserAlreadyExists` domain error (never a generic internal error),
leaves the store unchanged, and its entire persistence-call trace is the
single insert — there is no existence pre-check before it. -/
theorem register_unique_violation_is_user_already_exists
    (s : AuthService) (st : DBState) (req : RegisterRequest)
    (salt : Nat) (now : Int) (rb : List Nat)
    (h : CreateUser st req.Email req.Name (GenerateFromPassword salt req.Password)
      = .error .pgUniqueViolation) :
    (s.Register st req salt now rb).res = .error ErrUserAlreadyExists ∧
    (s.Register st req salt now rb).st = st ∧
    (s.Register st req salt now rb).calls = [.createUser req.Email req.Name] := by
  unfold AuthService.Register
  simp [h]

theorem register_unique_violation_is_user_already_exists_witness :
    CreateUser ⟨[⟨1, "a@x.com", "A", GenerateFromPassword 7 "old"⟩], [], 2, 1⟩
      "a@x.com" "A2" (GenerateFromPassword 9 "pw123456") = .error .pgUniqueViolation ∧
    ((⟨"sec"⟩ : AuthService).Register
        ⟨[⟨1, "a@x.com", "A", GenerateFromPassword 7 "old"⟩], [], 2, 1⟩
        ⟨"a@x.com", "A2", "pw123456"⟩ 9 0 [0]).res = .error ErrUserAlreadyExists ∧
    ((⟨"sec"⟩ : AuthService).Register
        ⟨[⟨1, "a@x.com", "A", GenerateFromPassword 7 "old"⟩], [], 2, 1⟩
        ⟨"a@x.com", "A2", "pw123456"⟩ 9 0 [0]).calls = [.createUser "a@x.com" "A2"] := by
  have h := register_unique_violation_is_user_already_exists
    (⟨"sec"⟩ : AuthService) ⟨[⟨1, "a@x.com", "A", GenerateFromPassword 7 "old"⟩], [], 2, 1⟩
    ⟨"a@x.com", "A2", "pw123456"⟩ 9 0 [0] (by decide)
  exact ⟨by decide, h.1, h.2.2⟩

/-- C7: with no token in either the `token` query parameter or the
`Authorization` header, the gate yields the distinct non-error "no
identity" result `.ok none` (never confusable with the `.error` produced
for an invalid token); the mandatory middleware then rejects with
`ErrUserNotAuthenticated` while the optional middleware proceeds
anonymously. -/
theorem absent_token_is_distinct_no_identity
    (vf : UserJWTVerifier) (req : GinRequest)
    (hq : req.queryToken = "") (hh : req.authHeader = "") :
    ExtractUserIDFromJWT vf req = .ok none ∧
    (∀ e : GoErr, (Except.ok none : Except GoErr (Option Int)) ≠ .error e) ∧
    UserAuthMiddleware vf req = .reject ErrUserNotAuthenticated ∧
    OptionalUserAuthMiddleware vf req = .proceedAnon := by
  obtain ⟨q, a⟩ := req
  simp only at hq hh
  subst hq
  subst hh
  refine ⟨rfl, ?_, rfl, rfl⟩
  intro e h
  exact Except.noConfusion h

theorem absent_token_is_distinct_no_identity_witness :
    ExtractUserIDFromJWT (fun _ => .error (.simple "boom")) ⟨"", ""⟩ = .ok none ∧
    UserAuthMiddleware (fun _ => .error (.simple "boom")) ⟨"", ""⟩
      = .reject ErrUserNotAuthenticated ∧
    OptionalUserAuthMiddleware (fun _ => .error (.simple "boom")) ⟨"", ""⟩
      = .proceedAnon := by
  have h := absent_token_is_distinct_no_identity
    (fun _ => .error (.simple "boom")) ⟨"", ""⟩ rfl rfl
  exact ⟨h.1, h.2.2.1, h.2.2.2⟩

/-- A concrete verifier for exercising the gate: it accepts the wire
strings of a query-carried token (user 1) and a header-carried token
(user 2) and rejects everything else. -/
def headerVsQueryVerifier : UserJWTVerifier := fun ts =>
  if ts == "qtok" then .ok ⟨1, "q@x.com", 100, 0⟩
  else if ts == "htok" then .ok ⟨2, "h@x.com", 100, 0⟩
  else .error (.simple "bad token")

/-- C4 counterexample: a request carrying both a valid header token (user
2) and a valid query token (user 1) is authenticated as user 1 — the gate
reads the `token` query parameter first, so the Authorization header does
NOT take precedence, contrary to the claim. -/
theorem gate_header_precedence_counterexample :
    headerVsQueryVerifier "htok" = .ok ⟨2, "h@x.com", 100, 0⟩ ∧
    ExtractUserIDFromJWT headerVsQueryVerifier ⟨"qtok", "Bearer htok"⟩ = .ok (some 1) ∧
    ExtractUserIDFromJWT headerVsQueryVerifier ⟨"qtok", "Bearer htok"⟩ ≠ .ok (some 2) := by
  refine ⟨rfl, rfl, ?_⟩
  decide

/-- C4 amended: for every request whose `token` query parameter is
non-empty, the gate authenticates using the query-parameter token —
whatever the Authorization header holds — and the header is consulted
only when the query parameter is absent; the query parameter takes
precedence. -/
theorem gate_query_param_precedence
    (vf : UserJWTVerifier) (q h : String) (hq : q ≠ "") :
    ExtractUserIDFromJWT vf ⟨q, h⟩ =
      (match vf q with
        | .error e =>
            .error (WrapDomainError ErrKeyAuthInvalidToken "Invalid or expired token" 401 e)
        | .ok claims => .ok (some claims.userId)) := by
  have hb : (q == "") = false := by
    cases hbe : q == "" with
    | true => exact absurd (eq_of_beq hbe) hq
    | false => rfl
  unfold ExtractUserIDFromJWT
  simp [hb]

theorem gate_query_param_precedence_witness :
    "qtok" ≠ "" ∧
    ExtractUserIDFromJWT headerVsQueryVerifier ⟨"qtok", "Bearer htok"⟩ = .ok (some 1) :=
  ⟨by decide,
    (gate_query_param_precedence headerVsQueryVerifier "qtok" "Bearer htok"
      (by decide)).trans rfl⟩

/-- C5 counterexample: a well-signed HS256 token that is past its expiry
and a badly-signed unexpired token both make `VerifyJWT` fail with the
very same `ErrInvalidToken` value: there is no expiry-specific error
(the unused `ErrTokenExpired` is a different value, and it would anyway
share the stable key `auth.invalid_token`). -/
theorem verify_jwt_expiry_error_counterexample :
    AuthService.VerifyJWT ⟨"sec"⟩ 10 (jwtSign "sec" ⟨1, "a@x.com", 5, 0⟩)
      = .error ErrInvalidToken ∧
    AuthService.VerifyJWT ⟨"sec"⟩ 10 ⟨SigAlg.HS256, ⟨1, "a@x.com", 99, 0⟩, Sig.forged 0⟩
      = .error ErrInvalidToken ∧
    ErrInvalidToken ≠ ErrTokenExpired := by
  refine ⟨rfl, rfl, ?_⟩
  decide

/-- C5 amended: before expiry a well-signed HMAC token verifies
successfully, but every verification failure — past expiry, wrong
signature, or wrong algorithm — is collapsed into the single generic
`ErrInvalidToken` error; the code never returns an expiry-specific or
signature-specific error. -/
theorem verify_jwt_uniform_failure
    (s : AuthService) (now : Int) (t : SignedToken) :
    (t.alg = SigAlg.HS256 → t.sig = Sig.hmacSHA256 s.jwtSecret t.claims →
      now < t.claims.expiresAt → s.VerifyJWT now t = .ok t) ∧
    (t.claims.expiresAt ≤ now → s.VerifyJWT now t = .error ErrInvalidToken) ∧
    (t.sig ≠ Sig.hmacSHA256 s.jwtSecret t.claims →
      s.VerifyJWT now t = .error ErrInvalidToken) ∧
    (t.alg ≠ SigAlg.HS256 → s.VerifyJWT now t = .error ErrInvalidToken) := by
  obtain ⟨alg, claims, sig⟩ := t
  refine ⟨?_, ?_, ?_, ?_⟩
  · intro h1 h2 h3
    simp only at h1 h2
    subst h1
    subst h2
    unfold AuthService.VerifyJWT jwtParseWithClaims
    simp [h3]
  · intro hexp
    unfold AuthService.VerifyJWT jwtParseWithClaims
    cases alg with
    | HS256 =>
        by_cases hs : sig = Sig.hmacSHA256 s.jwtSecret claims
        · simp only at hexp
          simp [hs, not_lt.mpr hexp]
        · simp [hs]
    | RS256 => simp
    | noAlg => simp
  · intro hs
    simp only at hs
    unfold AuthService.VerifyJWT jwtParseWithClaims
    cases alg with
    | HS256 => simp [hs]
    | RS256 => simp
    | noAlg => simp
  · intro ha
    simp only at ha
    unfold AuthService.VerifyJWT jwtParseWithClaims
    cases alg with
    | HS256 => exact absurd rfl ha
    | RS256 => simp
    | noAlg => simp

theorem verify_jwt_uniform_failure_witness :
    AuthService.VerifyJWT ⟨"sec"⟩ 3 (jwtSign "sec" ⟨1, "a@x.com", 5, 0⟩)
      = .ok (jwtSign "sec" ⟨1, "a@x.com", 5, 0⟩) ∧
    AuthService.VerifyJWT ⟨"sec"⟩ 10 (jwtSign "sec" ⟨1, "a@x.com", 5, 0⟩)
      = .error ErrInvalidToken :=
  ⟨(verify_jwt_uniform_failure ⟨"sec"⟩ 3 (jwtSign "sec" ⟨1, "a@x.com", 5, 0⟩)).1
      rfl rfl (by decide),
    (verify_jwt_uniform_failure ⟨"sec"⟩ 10 (jwtSign "sec" ⟨1, "a@x.com", 5, 0⟩)).2.1
      (by decide)⟩

theorem getRefreshToken_some_inv {st : DBState} {t : String} {now : Int}
    {r : RefreshToken} (h : GetRefreshToken st t now = some r) :
    r ∈ st.refreshTokens ∧ r.token = t ∧ now < r.expiresAt ∧ r.isRevoked = false := by
  unfold GetRefreshToken at h
  have hm := List.mem_of_find?_eq_some h
  have hp := List.find?_some h
  simp only [Bool.and_eq_true, beq_iff_eq, decide_eq_true_eq] at hp
  exact ⟨hm, hp.1.1, hp.1.2, hp.2⟩

/-- C8: whenever `generateTokenPair` succeeds, the access token is issued
at `now` and expires exactly 7 days after its issued-at; the refresh-token
value is the hex encoding of the random bytes (64 characters when 32 bytes
were drawn); and the persisted refresh-token row carries that value with
an expiry exactly 30 days after issuance and is not revoked. -/
theorem token_pair_fixed_lifetimes
    (s : AuthService) (st : DBState) (user : User) (now : Int) (rb : List Nat)
    (pair : TokenPair)
    (h : (s.generateTokenPair st user now rb).res = .ok pair) :
    pair.AccessToken.claims.issuedAt = now ∧
    pair.AccessToken.claims.expiresAt = pair.AccessToken.claims.issuedAt + 7 * 24 * 3600 ∧
    pair.RefreshToken = hexEncode rb ∧
    (rb.length = 32 → pair.RefreshToken.length = 64) ∧
    (∃ r ∈ ((s.generateTokenPair st user now rb).st).refreshTokens,
      r.token = pair.RefreshToken ∧ r.expiresAt = now + 30 * 24 * 3600 ∧
      r.isRevoked = false) := by
  cases hb : st.refreshTokens.any (fun x => x.token == hexEncode rb) with
  | true =>
      rw [generateTokenPair_collision s st user now rb hb] at h
      exact absurd h (by simp)
  | false =>
      rw [generateTokenPair_fresh s st user now rb hb] at h
      simp only [Except.ok.injEq] at h
      subst h
      refine ⟨rfl, rfl, rfl, ?_, ?_⟩
      · intro h32
        show (hexEncode rb).length = 64
        rw [hexEncode_length, h32]
      · rw [generateTokenPair_fresh s st user now rb hb]
        refine ⟨⟨st.nextTokenId, user.id, hexEncode rb, now + 30 * 24 * 3600, now, false⟩,
          ?_, rfl, rfl, rfl⟩
        simp

theorem token_pair_fixed_lifetimes_witness :
    ((⟨"sec"⟩ : AuthService).generateTokenPair ⟨[], [], 1, 1⟩
        ⟨1, "a@x.com", "A", GenerateFromPassword 7 "pw"⟩ 0 (List.replicate 32 0)).res
      = .ok ⟨jwtSign "sec" ⟨1, "a@x.com", 7 * 24 * 3600, 0⟩,
          hexEncode (List.replicate 32 0)⟩ ∧
    hexEncode (List.replicate 32 0) = String.mk (List.replicate 64 (Char.ofNat 48)) ∧
    (jwtSign "sec" ⟨1, "a@x.com", 7 * 24 * 3600, 0⟩).claims.expiresAt
      = (jwtSign "sec" ⟨1, "a@x.com", 7 * 24 * 3600, 0⟩).claims.issuedAt + 7 * 24 * 3600 ∧
    (hexEncode (List.replicate 32 0)).length = 64 := by
  have h := token_pair_fixed_lifetimes (⟨"sec"⟩ : AuthService) ⟨[], [], 1, 1⟩
    ⟨1, "a@x.com", "A", GenerateFromPassword 7 "pw"⟩ 0 (List.replicate 32 0)
    ⟨jwtSign "sec" ⟨1, "a@x.com", 7 * 24 * 3600, 0⟩, hexEncode (List.replicate 32 0)⟩
    (by rfl)
  exact ⟨by rfl, by rfl, h.2.1, h.2.2.2.1 (by rfl)⟩

/-- C1: single-use rotation: if `Refresh(t)` succeeds (its revoke of the
old row is persisted by the state it returns), then a second
`Refresh(t)` presenting the same old token value against the resulting
store fails with `ErrInvalidToken`, at any later time and with any fresh
randomness — the rotated token never mints another pair. -/
theorem refresh_token_single_use
    (s : AuthService) (st : DBState) (t : String) (nowA nowB : Int)
    (rbA rbB : List Nat) (pair : TokenPair)
    (h : (s.RefreshToken st t nowA rbA).res = .ok pair) :
    (s.RefreshToken (s.RefreshToken st t nowA rbA).st t nowB rbB).res
      = .error ErrInvalidToken := by
  cases hg : GetRefreshToken st t nowA with
  | none => simp [AuthService.RefreshToken, hg] at h
  | some dbToken =>
  cases hu : GetUserByID st dbToken.userId with
  | none => simp [AuthService.RefreshToken, hg, hu] at h
  | some user =>
  cases hb : (RevokeRefreshToken st t).refreshTokens.any
      (fun x => x.token == hexEncode rbA) with
  | true =>
      have hcol := generateTokenPair_collision s (RevokeRefreshToken st t) user nowA rbA hb
      simp [AuthService.RefreshToken, hg, hu, hcol] at h
  | false =>
      have hfr := generateTokenPair_fresh s (RevokeRefreshToken st t) user nowA rbA hb
      have hst2 : ((s.RefreshToken st t nowA rbA).st).refreshTokens =
          (RevokeRefreshToken st t).refreshTokens ++
            [⟨(RevokeRefreshToken st t).nextTokenId, user.id, hexEncode rbA,
              nowA + 30 * 24 * 3600, nowA, false⟩] := by
        simp only [AuthService.RefreshToken, hg, hu, hfr]
      obtain ⟨hmem, htok, _, _⟩ := getRefreshToken_some_inv hg
      have htokpres : ∀ z : RefreshToken,
          ((if z.token == t then { z with isRevoked := true } else z) :
            RefreshToken).token = z.token := by
        intro z
        by_cases hz : z.token == t
        · simp [hz]
        · simp [hz]
      have hall : ∀ x ∈ (RevokeRefreshToken st t).refreshTokens,
          (x.token == hexEncode rbA) = false := by
        intro x hx
        exact Bool.eq_false_iff.mpr (List.any_eq_false.mp hb x hx)
      have hmem1 : (if dbToken.token == t then { dbToken with isRevoked := true }
            else dbToken) ∈ (RevokeRefreshToken st t).refreshTokens := by
        unfold RevokeRefreshToken
        exact List.mem_map_of_mem _ hmem
      have hne : t ≠ hexEncode rbA := by
        intro heq
        have hfalse := hall _ hmem1
        rw [htokpres dbToken, htok, heq] at hfalse
        simp at hfalse
      have hnone : GetRefreshToken ((s.RefreshToken st t nowA rbA).st) t nowB = none := by
        unfold GetRefreshToken
        rw [hst2]
        apply List.find?_eq_none.mpr
        intro x hx
        simp only [List.mem_append, List.mem_singleton] at hx
        cases hx with
        | inl hx1 =>
            unfold RevokeRefreshToken at hx1
            simp only [List.mem_map] at hx1
            obtain ⟨y, _, rfl⟩ := hx1
            by_cases hyt : y.token == t
            · simp [hyt]
            · simp [hyt]
        | inr hx2 =>
            subst hx2
            simp
            intro habs
            exact absurd habs.symm hne
      revert hnone
      generalize (s.RefreshToken st t nowA rbA).st = S
      intro hnone
      simp [AuthService.RefreshToken, hnone]

theorem refresh_token_single_use_witness :
    ((⟨"sec"⟩ : AuthService).RefreshToken
        ⟨[⟨1, "a@x.com", "A", GenerateFromPassword 7 "pw"⟩],
          [⟨1, 1, "t0", 1000, 0, false⟩], 2, 2⟩ "t0" 0 [1]).res
      = .ok ⟨jwtSign "sec" ⟨1, "a@x.com", 7 * 24 * 3600, 0⟩, hexEncode [1]⟩ ∧
    ((⟨"sec"⟩ : AuthService).RefreshToken
        (((⟨"sec"⟩ : AuthService).RefreshToken
          ⟨[⟨1, "a@x.com", "A", GenerateFromPassword 7 "pw"⟩],
            [⟨1, 1, "t0", 1000, 0, false⟩], 2, 2⟩ "t0" 0 [1]).st) "t0" 5 [2]).res
      = .error ErrInvalidToken := by
  constructor
  · rfl
  · exact refresh_token_single_use (⟨"sec"⟩ : AuthService)
      ⟨[⟨1, "a@x.com", "A", GenerateFromPassword 7 "pw"⟩],
        [⟨1, 1, "t0", 1000, 0, false⟩], 2, 2⟩ "t0" 0 5 [1] [2]
      ⟨jwtSign "sec" ⟨1, "a@x.com", 7 * 24 * 3600, 0⟩, hexEncode [1]⟩ (by rfl)

theorem find?_email_append (us : List User) (email : String) (u : User)
    (hu : us.any (fun x => x.email == email) = false) (he : u.email = email) :
    (us ++ [u]).find? (fun x => x.email == email) = some u := by
  rw [List.find?_append]
  have h1 : us.find? (fun x => x.email == email) = none :=
    List.find?_eq_none.mpr (fun x hx => by simpa using List.any_eq_false.mp hu x hx)
  rw [h1]
  simp [List.find?, he]

theorem register_fresh (s : AuthService) (st : DBState) (req : RegisterRequest)
    (salt : Nat) (now : Int) (rb : List Nat)
    (hu : st.users.any (fun u => u.email == req.Email) = false)
    (ht : st.refreshTokens.any (fun x => x.token == hexEncode rb) = false) :
    s.Register st req salt now rb =
      ⟨.ok (⟨jwtSign s.jwtSecret ⟨st.nextUserId, req.Email, now + 7 * 24 * 3600, now⟩,
            hexEncode rb⟩,
          ⟨st.nextUserId, req.Email, req.Name, GenerateFromPassword salt req.Password⟩),
        ⟨st.users ++ [⟨st.nextUserId, req.Email, req.Name,
            GenerateFromPassword salt req.Password⟩],
          st.refreshTokens ++ [⟨st.nextTokenId, st.nextUserId, hexEncode rb,
            now + 30 * 24 * 3600, now, false⟩],
          st.nextUserId + 1, st.nextTokenId + 1⟩,
        [.createUser req.Email req.Name,
          .createRefreshToken st.nextUserId (hexEncode rb)]⟩ := by
  have hgt := generateTokenPair_fresh s
    ⟨st.users ++ [⟨st.nextUserId, req.Email, req.Name,
        GenerateFromPassword salt req.Password⟩],
      st.refreshTokens, st.nextUserId + 1, st.nextTokenId⟩
    ⟨st.nextUserId, req.Email, req.Name, GenerateFromPassword salt req.Password⟩ now rb ht
  unfold AuthService.Register CreateUser
  simp [hu, hgt]

theorem register_token_collision (s : AuthService) (st : DBState) (req : RegisterRequest)
    (salt : Nat) (now : Int) (rb : List Nat)
    (hu : st.users.any (fun u => u.email == req.Email) = false)
    (hc : st.refreshTokens.any (fun x => x.token == hexEncode rb) = true) :
    s.Register st req salt now rb =
      ⟨.error (.wrapf "failed to generate tokens"
          (.wrapf "failed to store refresh token" .pgUniqueViolation)),
        ⟨st.users ++ [⟨st.nextUserId, req.Email, req.Name,
            GenerateFromPassword salt req.Password⟩],
          st.refreshTokens, st.nextUserId + 1, st.nextTokenId⟩,
        [.createUser req.Email req.Name,
          .createRefreshToken st.nextUserId (hexEncode rb)]⟩ := by
  have hgt := generateTokenPair_collision s
    ⟨st.users ++ [⟨st.nextUserId, req.Email, req.Name,
        GenerateFromPassword salt req.Password⟩],
      st.refreshTokens, st.nextUserId + 1, st.nextTokenId⟩
    ⟨st.nextUserId, req.Email, req.Name, GenerateFromPassword salt req.Password⟩ now rb hc
  unfold AuthService.Register CreateUser
  simp [hu, hgt]

theorem login_fresh (s : AuthService) (st : DBState) (req : LoginRequest)
    (now : Int) (rb : List Nat) (user : User)
    (hu : GetUserByEmail st req.Email = some user)
    (hp : CompareHashAndPassword user.password req.Password = true)
    (ht : st.refreshTokens.any (fun x => x.token == hexEncode rb) = false) :
    (s.Login st req now rb).res =
      .ok (⟨jwtSign s.jwtSecret ⟨user.id, user.email, now + 7 * 24 * 3600, now⟩,
        hexEncode rb⟩, user) := by
  have hgt := generateTokenPair_fresh s st user now rb ht
  unfold AuthService.Login
  simp [hu, hp, hgt]

/-- C6: whenever Register succeeds on some input, an immediately following
Login against the resulting store with the same email and password (and
non-colliding fresh randomness for the new refresh token) succeeds and
returns the very same user that Register returned — hashing then
verification round-trips and the user id is preserved. -/
theorem register_login_roundtrip
    (s : AuthService) (st : DBState) (req : RegisterRequest)
    (salt : Nat) (nowA nowB : Int) (rbA rbB : List Nat) (pair : TokenPair) (user : User)
    (hreg : (s.Register st req salt nowA rbA).res = .ok (pair, user))
    (hfresh : ((s.Register st req salt nowA rbA).st).refreshTokens.any
        (fun x => x.token == hexEncode rbB) = false) :
    ∃ pairB, (s.Login (s.Register st req salt nowA rbA).st
        ⟨req.Email, req.Password⟩ nowB rbB).res = .ok (pairB, user) := by
  cases hu : st.users.any (fun u => u.email == req.Email) with
  | true => simp [AuthService.Register, CreateUser, hu] at hreg
  | false =>
  cases htA : st.refreshTokens.any (fun x => x.token == hexEncode rbA) with
  | true =>
      rw [register_token_collision s st req salt nowA rbA hu htA] at hreg
      exact absurd hreg (by simp)
  | false =>
      rw [register_fresh s st req salt nowA rbA hu htA] at hreg hfresh ⊢
      simp only [Except.ok.injEq, Prod.mk.injEq] at hreg
      obtain ⟨-, huser⟩ := hreg
      subst huser
      have hfind : GetUserByEmail
          ⟨st.users ++ [⟨st.nextUserId, req.Email, req.Name,
              GenerateFromPassword salt req.Password⟩],
            st.refreshTokens ++ [⟨st.nextTokenId, st.nextUserId, hexEncode rbA,
              nowA + 30 * 24 * 3600, nowA, false⟩],
            st.nextUserId + 1, st.nextTokenId + 1⟩ req.Email =
          some ⟨st.nextUserId, req.Email, req.Name,
            GenerateFromPassword salt req.Password⟩ :=
        find?_email_append st.users req.Email _ hu rfl
      have hp : CompareHashAndPassword
          (GenerateFromPassword salt req.Password) req.Password = true := by
        simp [CompareHashAndPassword, GenerateFromPassword]
      exact ⟨_, login_fresh s _ ⟨req.Email, req.Password⟩ nowB rbB _ hfind hp hfresh⟩

theorem register_login_roundtrip_witness :
    (((⟨"sec"⟩ : AuthService).Register ⟨[], [], 1, 1⟩ ⟨"a@x.com", "A", "pw123456"⟩
        7 0 [1]).res
      = .ok (⟨jwtSign "sec" ⟨1, "a@x.com", 7 * 24 * 3600, 0⟩, hexEncode [1]⟩,
          ⟨1, "a@x.com", "A", GenerateFromPassword 7 "pw123456"⟩)) ∧
    (∃ pairB, ((⟨"sec"⟩ : AuthService).Login
        (((⟨"sec"⟩ : AuthService).Register ⟨[], [], 1, 1⟩ ⟨"a@x.com", "A", "pw123456"⟩
          7 0 [1]).st) ⟨"a@x.com", "pw123456"⟩ 5 [2]).res
      = .ok (pairB, ⟨1, "a@x.com", "A", GenerateFromPassword 7 "pw123456"⟩)) := by
  constructor
  · rfl
  · exact register_login_roundtrip (⟨"sec"⟩ : AuthService) ⟨[], [], 1, 1⟩
      ⟨"a@x.com", "A", "pw123456"⟩ 7 0 5 [1] [2]
      ⟨jwtSign "sec" ⟨1, "a@x.com", 7 * 24 * 3600, 0⟩, hexEncode [1]⟩
      ⟨1, "a@x.com", "A", GenerateFromPassword 7 "pw123456"⟩ (by rfl) (by rfl)

/-- C10: Register is not atomic across its two side effects: when the user
insert succeeds but the refresh-token persistence fails, Register returns
an error while the new user row remains in the store; a retry of Register
with the same email then fails with `ErrUserAlreadyExists` even though the
caller never received tokens, while Login with the same credentials (and
fresh randomness) succeeds for that user. -/
theorem register_not_atomic
    (s : AuthService) (st : DBState) (req : RegisterRequest)
    (saltA saltB : Nat) (nowA nowB nowC : Int) (rbA rbB : List Nat) (rbC : List Nat)
    (hu : st.users.any (fun u => u.email == req.Email) = false)
    (hcol : st.refreshTokens.any (fun x => x.token == hexEncode rbA) = true)
    (hfresh : st.refreshTokens.any (fun x => x.token == hexEncode rbC) = false) :
    ((s.Register st req saltA nowA rbA).res =
        .error (.wrapf "failed to generate tokens"
          (.wrapf "failed to store refresh token" .pgUniqueViolation))) ∧
    (∃ u ∈ ((s.Register st req saltA nowA rbA).st).users, u.email = req.Email) ∧
    ((s.Register (s.Register st req saltA nowA rbA).st req saltB nowB rbB).res
        = .error ErrUserAlreadyExists) ∧
    (∃ pairC userC,
      (s.Login (s.Register st req saltA nowA rbA).st
          ⟨req.Email, req.Password⟩ nowC rbC).res = .ok (pairC, userC) ∧
      userC.email = req.Email) := by
  rw [register_token_collision s st req saltA nowA rbA hu hcol]
  refine ⟨rfl, ?_, ?_, ?_⟩
  · exact ⟨⟨st.nextUserId, req.Email, req.Name, GenerateFromPassword saltA req.Password⟩,
      by simp, rfl⟩
  · have hdup : (⟨st.users ++ [⟨st.nextUserId, req.Email, req.Name,
          GenerateFromPassword saltA req.Password⟩],
        st.refreshTokens, st.nextUserId + 1, st.nextTokenId⟩ : DBState).users.any
        (fun u => u.email == req.Email) = true := by
      simp
    simp [AuthService.Register, CreateUser, hdup]
  · have hfind : GetUserByEmail
        ⟨st.users ++ [⟨st.nextUserId, req.Email, req.Name,
            GenerateFromPassword saltA req.Password⟩],
          st.refreshTokens, st.nextUserId + 1, st.nextTokenId⟩ req.Email =
        some ⟨st.nextUserId, req.Email, req.Name,
          GenerateFromPassword saltA req.Password⟩ :=
      find?_email_append st.users req.Email _ hu rfl
    have hp : CompareHashAndPassword
        (GenerateFromPassword saltA req.Password) req.Password = true := by
      simp [CompareHashAndPassword, GenerateFromPassword]
    exact ⟨_, ⟨st.nextUserId, req.Email, req.Name, GenerateFromPassword saltA req.Password⟩,
      login_fresh s _ ⟨req.Email, req.Password⟩ nowC rbC _ hfind hp hfresh, rfl⟩

theorem register_not_atomic_witness :
    (((⟨"sec"⟩ : AuthService).Register
        ⟨[], [⟨1, 7, hexEncode [1], 1000, 0, false⟩], 1, 2⟩
        ⟨"a@x.com", "A", "pw123456"⟩ 7 0 [1]).res =
      .error (.wrapf "failed to generate tokens"
        (.wrapf "failed to store refresh token" .pgUniqueViolation))) ∧
    (((⟨"sec"⟩ : AuthService).Register
        (((⟨"sec"⟩ : AuthService).Register
          ⟨[], [⟨1, 7, hexEncode [1], 1000, 0, false⟩], 1, 2⟩
          ⟨"a@x.com", "A", "pw123456"⟩ 7 0 [1]).st)
        ⟨"a@x.com", "A", "pw123456"⟩ 8 5 [2]).res = .error ErrUserAlreadyExists) ∧
    (∃ pairC userC,
      ((⟨"sec"⟩ : AuthService).Login
          (((⟨"sec"⟩ : AuthService).Register
            ⟨[], [⟨1, 7, hexEncode [1], 1000, 0, false⟩], 1, 2⟩
            ⟨"a@x.com", "A", "pw123456"⟩ 7 0 [1]).st)
          ⟨"a@x.com", "pw123456"⟩ 9 [2]).res = .ok (pairC, userC) ∧
      userC.email = "a@x.com") := by
  have h := register_not_atomic (⟨"sec"⟩ : AuthService)
    ⟨[], [⟨1, 7, hexEncode [1], 1000, 0, false⟩], 1, 2⟩
    ⟨"a@x.com", "A", "pw123456"⟩ 7 8 0 5 9 [1] [2] [2]
    (by rfl) (by rfl) (by rfl)
  exact ⟨h.1, h.2.2.1, h.2.2.2⟩
